import Mathlib

/-!
Shallow embedding of the JWL equation-of-state model from
`src/singularity-eos/eos/eos_jwl.hpp`.

Modelling conventions:
* The C++ `Real` (double) is modelled as `ℚ`, i.e. exact arithmetic; the
  claims under study are algebraic identities and control-flow facts that the
  spec itself states in terms of exact real arithmetic.
* `std::exp` (from `<cmath>`, external to the repository) is threaded through
  as an abstract function argument `e : ℚ → ℚ`; every formula of the model
  uses it only through `ReferencePressure` / `ReferenceEnergy`, and no claim
  depends on its values.
* Output parameters (`Real &`) become returned values; `EOS_ERROR` (fatal
  abort, declared in `base/eos_error.hpp`, outside `src/`) becomes
  `Except.error`.
-/

set_option linter.unusedVariables false

namespace Singularity

/-- The seven constructor parameters of the `JWL` class
(`_A, _B, _R1, _R2, _w, _rho0, _Cv`), immutable after construction. -/
structure JWLParams where
  A : ℚ
  B : ℚ
  R1 : ℚ
  R2 : ℚ
  w : ℚ
  rho0 : ℚ
  Cv : ℚ
  deriving Repr, DecidableEq

namespace JWL

/-- `JWL::ReferencePressure` (eos_jwl.hpp lines 107-110):
`x = rho0/rho; A*exp(-R1*x) + B*exp(-R2*x)`. -/
def ReferencePressure (e : ℚ → ℚ) (p : JWLParams) (rho : ℚ) : ℚ :=
  let x := p.rho0 / rho
  p.A * e (-p.R1 * x) + p.B * e (-p.R2 * x)

/-- `JWL::ReferenceEnergy` (eos_jwl.hpp lines 111-115):
`x = rho0/rho; A/(rho0*R1)*exp(-R1*x) + B/(rho0*R2)*exp(-R2*x)`. -/
def ReferenceEnergy (e : ℚ → ℚ) (p : JWLParams) (rho : ℚ) : ℚ :=
  let x := p.rho0 / rho
  p.A / (p.rho0 * p.R1) * e (-p.R1 * x) + p.B / (p.rho0 * p.R2) * e (-p.R2 * x)

/-- `JWL::InternalEnergyFromDensityTemperature` (lines 116-119):
`ReferenceEnergy(rho) + Cv*temp`. -/
def InternalEnergyFromDensityTemperature (e : ℚ → ℚ) (p : JWLParams)
    (rho temp : ℚ) : ℚ :=
  ReferenceEnergy e p rho + p.Cv * temp

/-- `JWL::PressureFromDensityInternalEnergy` (lines 120-124):
`ReferencePressure(rho) + w*rho*(sie - ReferenceEnergy(rho))`. -/
def PressureFromDensityInternalEnergy (e : ℚ → ℚ) (p : JWLParams)
    (rho sie : ℚ) : ℚ :=
  ReferencePressure e p rho + p.w * rho * (sie - ReferenceEnergy e p rho)

/-- `JWL::TemperatureFromDensityInternalEnergy` (lines 131-134):
`(sie - ReferenceEnergy(rho)) / Cv`. -/
def TemperatureFromDensityInternalEnergy (e : ℚ → ℚ) (p : JWLParams)
    (rho sie : ℚ) : ℚ :=
  (sie - ReferenceEnergy e p rho) / p.Cv

/-- `JWL::SpecificHeatFromDensityInternalEnergy` (lines 135-138): returns `_Cv`. -/
def SpecificHeatFromDensityInternalEnergy (p : JWLParams)
    (rho sie : ℚ) : ℚ :=
  p.Cv

/-- `JWL::BulkModulusFromDensityInternalEnergy` (lines 139-146). -/
def BulkModulusFromDensityInternalEnergy (e : ℚ → ℚ) (p : JWLParams)
    (rho sie : ℚ) : ℚ :=
  let x := p.rho0 / rho
  (p.w + 1) * p.w * rho * (sie - ReferenceEnergy e p rho) +
    x * (p.A * p.R1 * e (-p.R1 * x) + p.B * p.R2 * e (-p.R2 * x))

/-- `JWL::GruneisenParamFromDensityInternalEnergy` (lines 147-151): returns `_w`. -/
def GruneisenParamFromDensityInternalEnergy (p : JWLParams)
    (rho sie : ℚ) : ℚ :=
  p.w

/-- Modelled from the spec: `EntropyIsNotEnabled` (declared in
`eos/eos_base.hpp`, which is not under `src/`) emits a one-time diagnostic
identifying the model and the unsupported quantity, and returns to the caller
without aborting.  We model the emitted diagnostic as a returned list of
messages. -/
def EntropyIsNotEnabled (eosname : String) : List String :=
  ["Entropy is not enabled for " ++ eosname]

/-- `JWL::EntropyFromDensityInternalEnergy` (lines 125-130): calls
`EntropyIsNotEnabled("JWL")` and returns `1.0`.  The returned pair is
(emitted diagnostics, returned value). -/
def EntropyFromDensityInternalEnergy (p : JWLParams)
    (rho sie : ℚ) : List String × ℚ :=
  (EntropyIsNotEnabled "JWL", 1)

/-- `JWL::PressureFromDensityTemperature` (lines 153-158): delegates to
`PressureFromDensityInternalEnergy(rho, InternalEnergyFromDensityTemperature(rho, temp))`. -/
def PressureFromDensityTemperature (e : ℚ → ℚ) (p : JWLParams)
    (rho temp : ℚ) : ℚ :=
  PressureFromDensityInternalEnergy e p rho
    (InternalEnergyFromDensityTemperature e p rho temp)

/-- `JWL::EntropyFromDensityTemperature` (lines 159-164): calls
`EntropyIsNotEnabled("JWL")` and returns `1.0`. -/
def EntropyFromDensityTemperature (p : JWLParams)
    (rho temp : ℚ) : List String × ℚ :=
  (EntropyIsNotEnabled "JWL", 1)

/-- `JWL::SpecificHeatFromDensityTemperature` (lines 165-169): delegates to
the density+energy form. -/
def SpecificHeatFromDensityTemperature (e : ℚ → ℚ) (p : JWLParams)
    (rho temp : ℚ) : ℚ :=
  SpecificHeatFromDensityInternalEnergy p rho
    (InternalEnergyFromDensityTemperature e p rho temp)

/-- `JWL::BulkModulusFromDensityTemperature` (lines 170-175): delegates to
the density+energy form. -/
def BulkModulusFromDensityTemperature (e : ℚ → ℚ) (p : JWLParams)
    (rho temp : ℚ) : ℚ :=
  BulkModulusFromDensityInternalEnergy e p rho
    (InternalEnergyFromDensityTemperature e p rho temp)

/-- `JWL::GruneisenParamFromDensityTemperature` (lines 176-180): returns `_w`. -/
def GruneisenParamFromDensityTemperature (p : JWLParams)
    (rho temp : ℚ) : ℚ :=
  p.w

/-- Modelled from the spec: the status values of the bracketed root-finding
engine (`RootFinding1D::Status`, declared in
`base/root-finding-1d/root_finding.hpp`, which is not under `src/`).  Per
spec section 4.4 the engine reports success, a "root not bracketed" failure
without iterating, or an "exceeded iteration budget" failure. -/
inductive RootStatus where
  | SUCCESS
  | NOT_BRACKETED
  | ITERATION_BUDGET_EXCEEDED
  deriving Repr, DecidableEq

/-- The interface of `RootFinding1D::regula_falsi` as invoked at
eos_jwl.hpp line 193: arguments are the residual function, the target value,
the initial guess, the bracket ends, and the two tolerances; it returns a
status together with the resolved root (the C++ out-parameter `rho`).  The
engine's implementation is not under `src/`, so the JWL-level theorems
quantify over an arbitrary engine of this interface. -/
def RootFinder : Type :=
  (ℚ → ℚ) → ℚ → ℚ → ℚ → ℚ → ℚ → ℚ → RootStatus × ℚ

/-- The residual closure `PofRatT` built inside
`JWL::DensityEnergyFromPressureTemperature` (line 188):
`Cv * temp * r * w + ReferencePressure(r)`. -/
def PofRatT (e : ℚ → ℚ) (p : JWLParams) (temp : ℚ) : ℚ → ℚ :=
  fun r => p.Cv * temp * r * p.w + ReferencePressure e p r

/-- The error message passed to `EOS_ERROR` at eos_jwl.hpp lines 196-197. -/
def rootFailMessage : String :=
  "JWL::DensityEnergyFromPressureTemperature: " ++
    "Root find failed to find a solution given P, T"

/-- `JWL::DensityEnergyFromPressureTemperature` with the guess-replacement of
line 187 stripped: the root find is seeded directly with `seed`.  Used to
express which seed the full entry point passes to the engine. -/
def DensityEnergyFromPTWithSeed (rf : RootFinder) (e : ℚ → ℚ) (p : JWLParams)
    (press temp seed : ℚ) : Except String (ℚ × ℚ) :=
  let res := rf (PofRatT e p temp) press seed (1e-5) (1e3) (1e-8) (1e-8)
  if res.1 = RootStatus.SUCCESS then
    Except.ok (res.2, InternalEnergyFromDensityTemperature e p res.2 temp)
  else
    Except.error rootFailMessage

/-- `JWL::DensityEnergyFromPressureTemperature` (eos_jwl.hpp lines 181-200).
`rhoIn` is the incoming value of the in/out argument `rho`, serving as the
density guess; `EOS_ERROR` (fatal, declared in `base/eos_error.hpp`, not under
`src/`) is modelled as `Except.error`.  On success the returned pair is the
resolved density together with the analytically recomputed energy of
line 199. -/
def DensityEnergyFromPressureTemperature (rf : RootFinder) (e : ℚ → ℚ)
    (p : JWLParams) (press temp rhoIn : ℚ) : Except String (ℚ × ℚ) :=
  let rhoguess := if rhoIn < 1e-8 then p.rho0 else rhoIn
  let res := rf (PofRatT e p temp) press rhoguess (1e-5) (1e3) (1e-8) (1e-8)
  if res.1 = RootStatus.SUCCESS then
    Except.ok (res.2, InternalEnergyFromDensityTemperature e p res.2 temp)
  else
    Except.error rootFailMessage

end JWL

namespace thermalqs

/-- Modelled from the spec: the `thermalqs` bitmask flags (declared in
`base/constants.hpp`, which is not under `src/`).  The spec requires only a
bitmask with one distinct bit per selectable output quantity
(pressure, temperature, specific heat, bulk modulus). -/
def density : Nat := 1

/-- Modelled from the spec: distinct bitmask flag, see `thermalqs.density`. -/
def specific_internal_energy : Nat := 2

/-- Modelled from the spec: distinct bitmask flag, see `thermalqs.density`. -/
def pressure : Nat := 4

/-- Modelled from the spec: distinct bitmask flag, see `thermalqs.density`. -/
def temperature : Nat := 8

/-- Modelled from the spec: distinct bitmask flag, see `thermalqs.density`. -/
def specific_heat : Nat := 16

/-- Modelled from the spec: distinct bitmask flag, see `thermalqs.density`. -/
def bulk_modulus : Nat := 32

end thermalqs

/-- The six in/out scalar fields of `JWL::FillEos`. -/
structure EosState where
  rho : ℚ
  temp : ℚ
  sie : ℚ
  press : ℚ
  cv : ℚ
  bmod : ℚ
  deriving Repr, DecidableEq

namespace JWL

/-- `JWL::FillEos` (eos_jwl.hpp lines 201-212): each output field whose bit
is set in `output` is overwritten from the density and energy fields; the
C++ reference parameters become a state-to-state function. -/
def FillEos (e : ℚ → ℚ) (p : JWLParams) (output : Nat)
    (s : EosState) : EosState :=
  let s := if output &&& thermalqs.pressure ≠ 0 then
    { s with press := PressureFromDensityInternalEnergy e p s.rho s.sie } else s
  let s := if output &&& thermalqs.temperature ≠ 0 then
    { s with temp := TemperatureFromDensityInternalEnergy e p s.rho s.sie } else s
  let s := if output &&& thermalqs.bulk_modulus ≠ 0 then
    { s with bmod := BulkModulusFromDensityInternalEnergy e p s.rho s.sie } else s
  let s := if output &&& thermalqs.specific_heat ≠ 0 then
    { s with cv := SpecificHeatFromDensityInternalEnergy p s.rho s.sie } else s
  s

/-- Modelled from the spec: the fixed ambient constant `ROOM_TEMPERATURE`
(declared in `base/constants.hpp`, not under `src/`); a fixed constant whose
exact value the spec leaves to "ambient conditions" (293 K in CGS-K units). -/
def ROOM_TEMPERATURE : ℚ := 293

/-- Modelled from the spec: the fixed ambient constant `ATMOSPHERIC_PRESSURE`
(declared in `base/constants.hpp`, not under `src/`); a fixed constant for
one standard atmosphere (1.01325e6 barye in CGS units). -/
def ATMOSPHERIC_PRESSURE : ℚ := 1.01325e6

/-- The eight out-parameters of `JWL::ValuesAtReferenceState`. -/
structure RefState where
  rho : ℚ
  temp : ℚ
  sie : ℚ
  press : ℚ
  cv : ℚ
  bmod : ℚ
  dpde : ℚ
  dvdt : ℚ
  deriving Repr, DecidableEq

/-- `JWL::ValuesAtReferenceState` (eos_jwl.hpp lines 217-230). -/
def ValuesAtReferenceState (e : ℚ → ℚ) (p : JWLParams) : RefState :=
  let rho := p.rho0
  let temp := ROOM_TEMPERATURE
  let sie := InternalEnergyFromDensityTemperature e p rho temp
  let press := ATMOSPHERIC_PRESSURE
  let cv := p.Cv
  let bmod := BulkModulusFromDensityInternalEnergy e p rho sie
  let dpde := p.w * p.rho0
  let gm1 := GruneisenParamFromDensityInternalEnergy p rho sie * rho
  let dvdt := gm1 * cv / bmod
  { rho := rho, temp := temp, sie := sie, press := press,
    cv := cv, bmod := bmod, dpde := dpde, dvdt := dvdt }

end JWL

/-- The concrete parameter set of the spec's test scenario:
`(A=3.712e11, B=3.21e9, R1=4.15, R2=0.95, w=0.3, rho0=1630, Cv=1000)`. -/
def jwlTest : JWLParams :=
  { A := 3.712e11, B := 3.21e9, R1 := 4.15, R2 := 0.95,
    w := 0.3, rho0 := 1630, Cv := 1000 }

/-- A concrete stand-in for `std::exp` used by witnesses; the claims under
study hold for every exponential function, so any concrete one suffices. -/
def expOne : ℚ → ℚ := fun q => 1 + q

/-- A root-finding engine that immediately succeeds at the supplied guess;
used by witnesses exercising the success path of the inversion wrapper. -/
def rfAlwaysRoot : JWL.RootFinder :=
  fun f target guess lo hi xtol ytol => (JWL.RootStatus.SUCCESS, guess)

/-- A root-finding engine that always reports a bracketing failure; used by
witnesses exercising the failure path of the inversion wrapper. -/
def rfNeverBracketed : JWL.RootFinder :=
  fun f target guess lo hi xtol ytol => (JWL.RootStatus.NOT_BRACKETED, guess)

end Singularity

open Singularity Singularity.JWL

/-- Claim C1: whenever the root solve succeeds,
`DensityEnergyFromPressureTemperature(P, T)` returns a pair `(rho, sie)` in
which `sie` equals `InternalEnergyFromDensityTemperature(rho, T)`, i.e.
`sie = ReferenceEnergy(rho) + Cv*T` exactly: the energy is recomputed
analytically from the resolved density, so the returned triple is
self-consistent.  Quantified over every root-finding engine `rf`. -/
theorem jwl_inversion_energy_self_consistent (rf : RootFinder) (e : ℚ → ℚ)
    (p : JWLParams) (press temp rhoIn rho sie : ℚ)
    (h : DensityEnergyFromPressureTemperature rf e p press temp rhoIn =
      Except.ok (rho, sie)) :
    sie = InternalEnergyFromDensityTemperature e p rho temp ∧
    sie = ReferenceEnergy e p rho + p.Cv * temp := by
  simp only [DensityEnergyFromPressureTemperature] at h
  split at h <;> split at h <;>
  first
  | (simp only [Except.ok.injEq, Prod.mk.injEq] at h
     obtain ⟨h1, h2⟩ := h
     subst h1
     subst h2
     exact ⟨rfl, rfl⟩)
  | exact absurd h (by simp)

/-- Witness for C1 at a concrete engine, model and inputs. -/
theorem jwl_inversion_energy_self_consistent_witness :
    InternalEnergyFromDensityTemperature expOne jwlTest 1630 3 =
      InternalEnergyFromDensityTemperature expOne jwlTest 1630 3 ∧
    InternalEnergyFromDensityTemperature expOne jwlTest 1630 3 =
      ReferenceEnergy expOne jwlTest 1630 + jwlTest.Cv * 3 :=
  jwl_inversion_energy_self_consistent rfAlwaysRoot expOne jwlTest 2 3 1630 1630
    (InternalEnergyFromDensityTemperature expOne jwlTest 1630 3)
    (by norm_num [DensityEnergyFromPressureTemperature, rfAlwaysRoot, jwlTest])

/-- Claim C2: for every density `rho > 0` and temperature `T` (with the
model's nonzero specific heat), the round trip
`TemperatureFromDensityInternalEnergy(rho, InternalEnergyFromDensityTemperature(rho, T))`
is exactly `T` in exact arithmetic, hence within the spec's relative
tolerance `1e-10`. -/
theorem jwl_round_trip_temperature (e : ℚ → ℚ) (p : JWLParams) (rho T : ℚ)
    (hrho : 0 < rho) (hCv : p.Cv ≠ 0) :
    TemperatureFromDensityInternalEnergy e p rho
      (InternalEnergyFromDensityTemperature e p rho T) = T := by
  unfold TemperatureFromDensityInternalEnergy InternalEnergyFromDensityTemperature
  rw [add_sub_cancel_left, mul_div_cancel_left₀ _ hCv]

/-- Witness for C2 at the spec's concrete parameter set. -/
theorem jwl_round_trip_temperature_witness :
    TemperatureFromDensityInternalEnergy expOne jwlTest 2
      (InternalEnergyFromDensityTemperature expOne jwlTest 2 3) = 3 :=
  jwl_round_trip_temperature expOne jwlTest 2 3 (by norm_num)
    (by norm_num [jwlTest])

/-- Counterexample to claim C3 as stated: with the spec's parameter set, at
`rho = 1630`, `T = 298.15`, the computed internal energy does NOT equal the
reference-energy term alone (it exceeds it by `Cv*T = 298150`), and the
pressure at that computed energy does NOT equal `ReferencePressure(1630)`
(the departure term `w*rho*Cv*T` is nonzero). -/
theorem jwl_ref_alignment_counterexample :
    InternalEnergyFromDensityTemperature expOne jwlTest 1630 (29815/100) ≠
      ReferenceEnergy expOne jwlTest 1630 ∧
    PressureFromDensityInternalEnergy expOne jwlTest 1630
        (InternalEnergyFromDensityTemperature expOne jwlTest 1630 (29815/100)) ≠
      ReferencePressure expOne jwlTest 1630 := by
  constructor
  · unfold InternalEnergyFromDensityTemperature
    intro h
    have hz : jwlTest.Cv * (29815/100 : ℚ) = 0 := by linarith
    norm_num [jwlTest] at hz
  · unfold PressureFromDensityInternalEnergy InternalEnergyFromDensityTemperature
    intro h
    have hz : jwlTest.w * 1630 * (jwlTest.Cv * (29815/100 : ℚ)) = 0 := by
      nlinarith [h]
    norm_num [jwlTest] at hz

/-- Claim C3 as amended: at `rho = 1630`, `T = 298.15` the internal energy is
the reference energy PLUS `Cv*T`, and the pressure at that energy is the
reference pressure PLUS the departure term `w*rho*Cv*T`; the zero-departure
identities hold exactly when the energy equals the reference energy (i.e. at
`T = 0`), for every exponential function. -/
theorem jwl_ref_alignment_amended (e : ℚ → ℚ) :
    InternalEnergyFromDensityTemperature e jwlTest 1630 (29815/100) =
      ReferenceEnergy e jwlTest 1630 + 1000 * (29815/100) ∧
    PressureFromDensityInternalEnergy e jwlTest 1630
        (InternalEnergyFromDensityTemperature e jwlTest 1630 (29815/100)) =
      ReferencePressure e jwlTest 1630 + (3/10) * 1630 * (1000 * (29815/100)) ∧
    InternalEnergyFromDensityTemperature e jwlTest 1630 0 =
      ReferenceEnergy e jwlTest 1630 ∧
    PressureFromDensityInternalEnergy e jwlTest 1630
        (ReferenceEnergy e jwlTest 1630) =
      ReferencePressure e jwlTest 1630 := by
  refine ⟨?_, ?_, ?_, ?_⟩ <;>
    simp [InternalEnergyFromDensityTemperature, PressureFromDensityInternalEnergy,
      jwlTest] <;> ring

/-- Claim C4: both entropy operations return the fixed sentinel `1.0` for
every state, and signal the failure only through the (spec-modelled,
non-fatal) `EntropyIsNotEnabled` diagnostic rather than by aborting. -/
theorem jwl_entropy_sentinel (p : JWLParams) (rho sie temp : ℚ) :
    (EntropyFromDensityInternalEnergy p rho sie).2 = 1 ∧
    (EntropyFromDensityTemperature p rho temp).2 = 1 ∧
    (EntropyFromDensityInternalEnergy p rho sie).1 =
      EntropyIsNotEnabled "JWL" ∧
    (EntropyFromDensityTemperature p rho temp).1 =
      EntropyIsNotEnabled "JWL" :=
  ⟨rfl, rfl, rfl, rfl⟩

/-- Claim C5: whenever the root-finding engine does not report success on the
residual, target and seed that `DensityEnergyFromPressureTemperature` passes
it, the call signals the fatal-class error naming the operation instead of
returning a density. -/
theorem jwl_inversion_failure_fatal (rf : RootFinder) (e : ℚ → ℚ)
    (p : JWLParams) (press temp rhoIn : ℚ)
    (h : (rf (PofRatT e p temp) press
        (if rhoIn < 1e-8 then p.rho0 else rhoIn)
        (1e-5) (1e3) (1e-8) (1e-8)).1 ≠ RootStatus.SUCCESS) :
    DensityEnergyFromPressureTemperature rf e p press temp rhoIn =
      Except.error rootFailMessage := by
  simp only [DensityEnergyFromPressureTemperature]
  rw [if_neg h]

/-- Witness for C5 with an engine that reports a bracketing failure. -/
theorem jwl_inversion_failure_fatal_witness :
    DensityEnergyFromPressureTemperature rfNeverBracketed expOne jwlTest 2 3 1630 =
      Except.error rootFailMessage :=
  jwl_inversion_failure_fatal rfNeverBracketed expOne jwlTest 2 3 1630
    (by simp [rfNeverBracketed])

/-- Claim C6: `FillEos` leaves the density and energy fields unchanged
always, overwrites exactly the fields whose bit is set in the output mask
(each computed from the incoming density and energy), and leaves every field
whose bit is not set unchanged. -/
theorem jwl_fill_eos_frame (e : ℚ → ℚ) (p : JWLParams) (output : Nat)
    (s : EosState) :
    (FillEos e p output s).rho = s.rho ∧
    (FillEos e p output s).sie = s.sie ∧
    (FillEos e p output s).press =
      (if output &&& thermalqs.pressure ≠ 0
        then PressureFromDensityInternalEnergy e p s.rho s.sie else s.press) ∧
    (FillEos e p output s).temp =
      (if output &&& thermalqs.temperature ≠ 0
        then TemperatureFromDensityInternalEnergy e p s.rho s.sie else s.temp) ∧
    (FillEos e p output s).bmod =
      (if output &&& thermalqs.bulk_modulus ≠ 0
        then BulkModulusFromDensityInternalEnergy e p s.rho s.sie else s.bmod) ∧
    (FillEos e p output s).cv =
      (if output &&& thermalqs.specific_heat ≠ 0
        then SpecificHeatFromDensityInternalEnergy p s.rho s.sie else s.cv) := by
  simp only [FillEos]
  split_ifs <;> simp_all

/-- Claim C7: `PressureFromDensityTemperature(rho, T)` equals
`PressureFromDensityInternalEnergy(rho, InternalEnergyFromDensityTemperature(rho, T))`
exactly: the density+temperature operation delegates to the density+energy
formula. -/
theorem jwl_cross_pair_pressure (e : ℚ → ℚ) (p : JWLParams) (rho temp : ℚ) :
    PressureFromDensityTemperature e p rho temp =
      PressureFromDensityInternalEnergy e p rho
        (InternalEnergyFromDensityTemperature e p rho temp) :=
  rfl

/-- Claim C8: the inversion entry point seeds the root find with the incoming
in/out density argument, except that an incoming value below `1e-8` is
replaced by the reference density `rho0`: with a tiny incoming guess the call
behaves as the directly-seeded variant at `rho0`, otherwise as the
directly-seeded variant at the incoming value. -/
theorem jwl_inversion_seed (rf : RootFinder) (e : ℚ → ℚ) (p : JWLParams)
    (press temp rhoIn : ℚ) :
    (rhoIn < 1e-8 →
      DensityEnergyFromPressureTemperature rf e p press temp rhoIn =
        DensityEnergyFromPTWithSeed rf e p press temp p.rho0) ∧
    (¬ rhoIn < 1e-8 →
      DensityEnergyFromPressureTemperature rf e p press temp rhoIn =
        DensityEnergyFromPTWithSeed rf e p press temp rhoIn) := by
  constructor
  · intro h
    simp only [DensityEnergyFromPressureTemperature,
      DensityEnergyFromPTWithSeed, if_pos h]
  · intro h
    simp only [DensityEnergyFromPressureTemperature,
      DensityEnergyFromPTWithSeed, if_neg h]

/-- Witness for C8: a zero incoming guess is replaced by `rho0`, and a
large incoming guess is used as-is. -/
theorem jwl_inversion_seed_witness :
    (DensityEnergyFromPressureTemperature rfAlwaysRoot expOne jwlTest 2 3 0 =
      DensityEnergyFromPTWithSeed rfAlwaysRoot expOne jwlTest 2 3 jwlTest.rho0) ∧
    (DensityEnergyFromPressureTemperature rfAlwaysRoot expOne jwlTest 2 3 500 =
      DensityEnergyFromPTWithSeed rfAlwaysRoot expOne jwlTest 2 3 500) :=
  ⟨(jwl_inversion_seed rfAlwaysRoot expOne jwlTest 2 3 0).1 (by norm_num),
   (jwl_inversion_seed rfAlwaysRoot expOne jwlTest 2 3 500).2 (by norm_num)⟩

/-- Claim C9: both Grüneisen-parameter operations return the constructor
parameter `w`, independent of the thermodynamic state. -/
theorem jwl_gruneisen_constant (p : JWLParams) (rho sie temp : ℚ) :
    GruneisenParamFromDensityInternalEnergy p rho sie = p.w ∧
    GruneisenParamFromDensityTemperature p rho temp = p.w :=
  ⟨rfl, rfl⟩

/-- Claim C10: `ValuesAtReferenceState` sets the temperature to the fixed
constant `ROOM_TEMPERATURE` and the pressure to the fixed constant
`ATMOSPHERIC_PRESSURE` for every parameter set, and there is a model for
which that pressure differs from the model's own
`PressureFromDensityInternalEnergy` at the returned `(rho0, sie)`: the
reference point need not satisfy the model's pressure relation. -/
theorem jwl_reference_state_constants :
    (∀ (e : ℚ → ℚ) (p : JWLParams),
      (ValuesAtReferenceState e p).temp = ROOM_TEMPERATURE ∧
      (ValuesAtReferenceState e p).press = ATMOSPHERIC_PRESSURE) ∧
    (∃ (e : ℚ → ℚ) (p : JWLParams),
      (ValuesAtReferenceState e p).press ≠
        PressureFromDensityInternalEnergy e p
          (ValuesAtReferenceState e p).rho (ValuesAtReferenceState e p).sie) := by
  refine ⟨fun e p => ⟨rfl, rfl⟩,
    ⟨fun q => 0, ⟨0, 0, 1, 1, 1, 1, 1⟩, ?_⟩⟩
  norm_num [ValuesAtReferenceState, PressureFromDensityInternalEnergy,
    ReferencePressure, ReferenceEnergy, InternalEnergyFromDensityTemperature,
    ROOM_TEMPERATURE, ATMOSPHERIC_PRESSURE]
